import Mathlib

/-!
Verification of the dbx-aidev repository: a shallow embedding of
`dbx_execution/utils.py`, `dbx_execution/sql_executor.py`,
`src/templates/dbx_execution/notebook_executor.py` and
`src/cli/commands/dbai.py`, followed by theorems settling the
specification claims about those modules.

Modelling conventions:
- Python dictionaries with string keys and string values become
  association lists (`List (String × String)`); `d.get(k, default)`
  becomes `(List.lookup k d).getD default`.
- Fallible SDK calls become `Except String` values supplied by an
  oracle structure (`SqlClient`, a probe function, ...); `Except.error`
  models a raised exception whose text is the payload.
- Wall-clock time advances only at the explicit `time.sleep` calls of
  the polling loops: `elapsed` counts the accumulated slept seconds.
- `while time.time() - start < timeout` loops become fuel-based
  structural recursion; the fuel only bounds the number of loop
  iterations, and `none` models a loop that never finishes (which for
  these loops can only happen when the sleep interval is zero).
-/

/-- A Python string-to-string dictionary, as an association list. -/
abbrev StrDict := List (String × String)

/-- Model of Python `str.upper()` (exact on the ASCII state tags used here). -/
def pyUpper (s : String) : String := ⟨s.data.map Char.toUpper⟩

/-- From `utils.py`, `safe_get_error_message`: try the `error`, `message`
and `state_message` keys in order, else a generic message. -/
def safe_get_error_message (response : StrDict) : String :=
  match List.lookup "error" response with
  | some v => v
  | none =>
    match List.lookup "message" response with
    | some v => v
    | none =>
      match List.lookup "state_message" response with
      | some v => v
      | none => "Unknown error occurred"

/-- Terminal states of `poll_until_complete` in `utils.py`. -/
def pollTerminalStates : List String :=
  ["TERMINATED", "SKIPPED", "SUCCESS", "FAILED", "CANCELLED"]

/-- In-progress states of `poll_until_complete` in `utils.py`. -/
def pollProgressStates : List String := ["PENDING", "RUNNING", "EXECUTING"]

/-- The state tag a status dictionary carries: `status.get('state', '').upper()`. -/
def stateUpper (status : StrDict) : String :=
  pyUpper ((List.lookup "state" status).getD "")

/-- The synthetic timeout dictionary returned after the polling loop of
`poll_until_complete` exits. -/
def timeoutDict (timeout_seconds : Nat) : StrDict :=
  [("state", "TIMEOUT"),
   ("message", "Operation timed out after " ++ toString timeout_seconds ++ " seconds")]

/-- Outcome of one run of `poll_until_complete`: the returned dictionary,
the accumulated slept seconds at the moment of return, and the number of
probe invocations that were made. -/
structure PollResult where
  status : StrDict
  elapsed : Nat
  calls : Nat
deriving DecidableEq, Repr

/-- The `while` loop of `poll_until_complete` (`utils.py` lines 45-66).
`probe k` is the `k`-th call of `get_status_func` (`Except.error` models a
raised exception).  One unit of fuel is spent per loop iteration; `none`
models an unfinished loop. -/
def pollLoop (probe : Nat → Except String StrDict)
    (timeout_seconds poll_interval : Nat) :
    Nat → Nat → Nat → Option PollResult
  | 0, calls, elapsed =>
    if elapsed < timeout_seconds then none
    else some ⟨timeoutDict timeout_seconds, elapsed, calls⟩
  | fuel + 1, calls, elapsed =>
    if elapsed < timeout_seconds then
      match probe calls with
      | Except.error _ => some ⟨timeoutDict timeout_seconds, elapsed, calls + 1⟩
      | Except.ok status =>
        if stateUpper status ∈ pollTerminalStates then
          some ⟨status, elapsed, calls + 1⟩
        else if stateUpper status ∈ pollProgressStates then
          pollLoop probe timeout_seconds poll_interval fuel (calls + 1)
            (elapsed + poll_interval)
        else
          some ⟨timeoutDict timeout_seconds, elapsed, calls + 1⟩
    else
      some ⟨timeoutDict timeout_seconds, elapsed, calls⟩

/-- From `utils.py`, `poll_until_complete`: run the polling loop from a
fresh start time.  `timeout_seconds + 1` units of fuel are provably enough
for every positive poll interval. -/
def poll_until_complete (probe : Nat → Except String StrDict)
    (timeout_seconds poll_interval : Nat) : Option PollResult :=
  pollLoop probe timeout_seconds poll_interval (timeout_seconds + 1) 0 0

example :
    poll_until_complete (fun _ => Except.ok [("state", "success")]) 300 10
      = some ⟨[("state", "success")], 0, 1⟩ := by decide

example :
    poll_until_complete (fun _ => Except.ok [("state", "RUNNING")]) 3 2
      = some ⟨timeoutDict 3, 4, 2⟩ := by decide

/-! ## SQL executor (`dbx_execution/sql_executor.py`) -/

/-- The result manifest of a statement (`statement.manifest`): the total
row count (`none` models a missing `total_row_count` attribute) and the
column names of `manifest.schema` (`none` models a missing schema). -/
structure Manifest where
  total_row_count : Option Int
  schema_columns : Option (List String)
deriving DecidableEq, Repr

/-- What one `get_statement` call exposes: `status.state.value`, the
`status.__dict__` used for error extraction, and the manifest. -/
structure StatementInfo where
  state : String
  status_fields : StrDict
  manifest : Option Manifest
deriving DecidableEq, Repr

/-- What `get_statement_result_chunk_n` returns: `result_data.data_array`
(`none` models a missing/None data array). -/
structure ChunkData where
  data_array : Option (List (List String))
deriving DecidableEq, Repr

/-- Oracle for the Databricks SDK calls issued by `SQLExecutor`.
`execute_statement` takes the submitted query, warehouse id, catalog,
schema and prepared parameter list and yields the statement id;
`get_statement n` is the `n`-th `get_statement` call of one `execute_sql`
run; `get_statement_result_chunk_n i` fetches result chunk `i`.
`Except.error` models a raised exception whose text is the payload. -/
structure SqlClient where
  execute_statement : String → String → Option String → Option String →
    Option (List (String × String)) → Except String String
  get_statement : Nat → Except String StatementInfo
  get_statement_result_chunk_n : Nat → Except String ChunkData

/-- The nested `results` dictionary built by `_get_statement_results`:
`total_row_count` and `error` are `none` when the corresponding key is
absent from the returned dictionary. -/
structure SqlResults where
  columns : List String
  data : List (List (String × String))
  total_row_count : Option Int
  error : Option String
deriving DecidableEq, Repr

/-- Message of the `TypeError` Python raises (and the `except` clause
catches) when `manifest.total_row_count` is `None` and is compared
against `0` in `_get_statement_results`. -/
def pyTypeErrorMsg : String :=
  "unsupported comparison between instances of NoneType and int"

/-- From `sql_executor.py`, `SQLExecutor._get_statement_results`
(lines 216-259): re-fetch the statement, and when the manifest reports a
positive total row count fetch chunk 0 and zip each row with the column
names; otherwise return the empty result set.  Every exception is caught
and converted into an empty result annotated with the error text.
`call_index` is the index of the `get_statement` call this function makes. -/
def _get_statement_results (client : SqlClient) (call_index : Nat) : SqlResults :=
  match client.get_statement call_index with
  | Except.error e => ⟨[], [], none, some e⟩
  | Except.ok st =>
    match st.manifest with
    | none => ⟨[], [], some 0, none⟩
    | some m =>
      match m.total_row_count with
      | none => ⟨[], [], none, some pyTypeErrorMsg⟩
      | some trc =>
        if 0 < trc then
          match client.get_statement_result_chunk_n 0 with
          | Except.error e => ⟨[], [], none, some e⟩
          | Except.ok chunk =>
            let columns := m.schema_columns.getD []
            let data := (chunk.data_array.getD []).map (fun row => columns.zip row)
            ⟨columns, data, some trc, none⟩
        else ⟨[], [], some 0, none⟩

/-- The dictionary `execute_sql` returns, one constructor per shape:
`success` for the `'SUCCESS'` dictionary (statement id, execution time,
`row_count`, nested `results`), `terminalFail` for the `'FAILED'` /
`'CANCELED'` dictionary, `timeout` for the synthetic `'TIMEOUT'`
dictionary, `errorResult` for the outer `'ERROR'` dictionary. -/
inductive SqlOutcome where
  | success (statement_id : String) (execution_time : Nat) (row_count : Nat)
      (results : SqlResults)
  | terminalFail (status : String) (statement_id : String) (error : String)
  | timeout (statement_id : String) (timeout_seconds : Nat)
  | errorResult (error : String)
deriving DecidableEq, Repr

/-- The `'status'` tag of the dictionary an outcome stands for. -/
def statusTag : SqlOutcome → String
  | SqlOutcome.success _ _ _ _ => "SUCCESS"
  | SqlOutcome.terminalFail s _ _ => s
  | SqlOutcome.timeout _ _ => "TIMEOUT"
  | SqlOutcome.errorResult _ => "ERROR"

/-- The `'error'` value of the dictionary an outcome stands for (`none`
when the dictionary has no `'error'` key, as for `'SUCCESS'` and
`'TIMEOUT'`). -/
def outcomeError : SqlOutcome → Option String
  | SqlOutcome.success _ _ _ _ => none
  | SqlOutcome.terminalFail _ _ e => some e
  | SqlOutcome.timeout _ _ => none
  | SqlOutcome.errorResult e => some e

/-- The `while` loop of `_wait_for_sql_completion` (`sql_executor.py`
lines 165-214).  `calls` counts the `get_statement` calls already made,
`elapsed` the accumulated slept seconds; the loop sleeps 5 seconds after
each `PENDING`/`RUNNING` poll.  Any exception from `get_statement`, and
any unknown state, breaks the loop, which then returns the `'TIMEOUT'`
dictionary.  One unit of fuel is spent per iteration; with the 5-second
sleep, `timeout_seconds + 1` units provably always suffice. -/
def waitLoop (client : SqlClient) (statement_id : String) (timeout_seconds : Nat) :
    Nat → Nat → Nat → Option SqlOutcome
  | 0, _, elapsed =>
    if elapsed < timeout_seconds then none
    else some (SqlOutcome.timeout statement_id timeout_seconds)
  | fuel + 1, calls, elapsed =>
    if elapsed < timeout_seconds then
      match client.get_statement calls with
      | Except.error _ => some (SqlOutcome.timeout statement_id timeout_seconds)
      | Except.ok st =>
        if st.state = "SUCCEEDED" then
          let results := _get_statement_results client (calls + 1)
          some (SqlOutcome.success statement_id elapsed results.data.length results)
        else if st.state = "FAILED" ∨ st.state = "CANCELED" then
          some (SqlOutcome.terminalFail st.state statement_id
            (safe_get_error_message st.status_fields))
        else if st.state = "PENDING" ∨ st.state = "RUNNING" then
          waitLoop client statement_id timeout_seconds fuel (calls + 1) (elapsed + 5)
        else
          some (SqlOutcome.timeout statement_id timeout_seconds)
    else
      some (SqlOutcome.timeout statement_id timeout_seconds)

/-- From `sql_executor.py`, `SQLExecutor._wait_for_sql_completion`:
the polling loop started at the submission time. -/
def _wait_for_sql_completion (client : SqlClient) (statement_id : String)
    (timeout_seconds : Nat) : Option SqlOutcome :=
  waitLoop client statement_id timeout_seconds (timeout_seconds + 1) 0 0

/-- The `statement_params` value `execute_sql` prepares from its
`parameters` argument: Python's `if parameters:` maps both `None` and an
empty dictionary to `None`. -/
def mkStatementParams (parameters : Option (List (String × String))) :
    Option (List (String × String)) :=
  match parameters with
  | none => none
  | some ps => if ps.isEmpty then none else some ps

/-- From `sql_executor.py`, `SQLExecutor.execute_sql` (lines 18-69):
prepare the parameters, submit the statement and poll to completion.
The outer `try` converts an exception raised during submission into the
`'ERROR'` dictionary. -/
def execute_sql (client : SqlClient) (query : String) (warehouse_id : String)
    (catalog : Option String) (schema : Option String)
    (parameters : Option (List (String × String)))
    (timeout_seconds : Nat) : Option SqlOutcome :=
  match client.execute_statement query warehouse_id catalog schema
      (mkStatementParams parameters) with
  | Except.error e => some (SqlOutcome.errorResult e)
  | Except.ok statement_id =>
    _wait_for_sql_completion client statement_id timeout_seconds

/-- A client whose statement succeeds at once with a two-row chunk while
the manifest reports five total rows. -/
def multiChunkClient : SqlClient where
  execute_statement := fun _ _ _ _ _ => Except.ok "stmt-1"
  get_statement := fun _ =>
    Except.ok ⟨"SUCCEEDED", [], some ⟨some 5, some ["a"]⟩⟩
  get_statement_result_chunk_n := fun _ => Except.ok ⟨some [["1"], ["2"]]⟩

example :
    execute_sql multiChunkClient "SELECT a FROM t" "wh" none none none 60
      = some (SqlOutcome.success "stmt-1" 0 2
          ⟨["a"], [[("a", "1")], [("a", "2")]], some 5, none⟩) := by decide

/-! ## Notebook executor retry wrapper
(`src/templates/dbx_execution/notebook_executor.py`, lines 274-301) -/

/-- The `for attempt in range(max_retries + 1)` loop of
`run_notebook_with_retry`.  `run k` is the result dictionary of the
`k`-th `run_notebook` invocation; `remaining` is `max_retries - attempt`,
so `remaining = 0` is Python's `attempt == max_retries`.  Returns the
result dictionary together with the number of `run_notebook` invocations
made. -/
def retryAux (run : Nat → StrDict) : Nat → Nat → StrDict × Nat
  | attempt, 0 =>
    -- last attempt: both the success return and the
    -- `attempt == max_retries` return yield this attempt's result
    (run attempt, 1)
  | attempt, remaining + 1 =>
    let result := run attempt
    if List.lookup "status" result = some "SUCCESS" then
      (result, 1)
    else
      let rest := retryAux run (attempt + 1) remaining
      (rest.1, rest.2 + 1)

/-- From `notebook_executor.py`, `NotebookExecutor.run_notebook_with_retry`:
invoke `run_notebook` up to `max_retries + 1` times, returning as soon as
a result has status `'SUCCESS'` and otherwise returning the last result. -/
def run_notebook_with_retry (run : Nat → StrDict) (max_retries : Nat) :
    StrDict × Nat :=
  retryAux run 0 max_retries

example :
    run_notebook_with_retry (fun _ => [("status", "FAILED")]) 2
      = ([("status", "FAILED")], 3) := by decide

example :
    run_notebook_with_retry
      (fun k => if k = 1 then [("status", "SUCCESS")] else [("status", "FAILED")]) 5
      = ([("status", "SUCCESS")], 2) := by decide

/-! ## Scaffolding command (`src/cli/commands/dbai.py`)

Files and directories are modelled as association lists from names to
contents; Python substring and line operations are modelled over
character lists so that every definition evaluates in the kernel. -/

/-- Whether the character list `s` starts with the pattern `p`
(Python `str.startswith`). -/
def charsStartWith : List Char → List Char → Bool
  | [], _ => true
  | _ :: _, [] => false
  | p :: ps, c :: cs => p == c && charsStartWith ps cs

/-- Whether the pattern `pat` occurs as a contiguous substring of `s`
(Python's `pat in s`). -/
def charsContain (pat : List Char) : List Char → Bool
  | [] => charsStartWith pat []
  | c :: cs => charsStartWith pat (c :: cs) || charsContain pat cs

/-- Python's `pat in s` on strings. -/
def strContains (s pat : String) : Bool := charsContain pat.data s.data

/-- Python's `content.split('\n')`. -/
def splitOnNewline : List Char → List (List Char)
  | [] => [[]]
  | c :: cs =>
    let rest := splitOnNewline cs
    if c == '\n' then [] :: rest
    else
      match rest with
      | [] => [[c]]
      | l :: ls => (c :: l) :: ls

/-- Python's `str.rstrip()` (trailing-whitespace removal). -/
def rstripStr (s : String) : String :=
  ⟨(s.data.reverse.dropWhile Char.isWhitespace).reverse⟩

/-- The section-start marker `_extract_databricks_section` and
`_append_to_claude_md` look for. -/
def markerText : String := "# Databricks AI Development Setup Tool"

/-- From `dbai.py`, `_extract_databricks_section` (lines 107-118): drop
every line before the first one that starts with the marker (keeping the
whole content when no line does). -/
def _extract_databricks_section (content : String) : String :=
  let lines := splitOnNewline content.data
  let start_idx := (lines.findIdx? (fun l => charsStartWith markerText.data l)).getD 0
  ⟨List.intercalate ['\n'] (lines.drop start_idx)⟩

/-- From `dbai.py`, `_append_to_claude_md` (lines 88-104), as a function
of the template content and the existing `CLAUDE.md` content: `none`
means no write was performed; `some c` means the file was rewritten with
content `c`. -/
def _append_to_claude_md (src_content dst_content : String) : Option String :=
  let databricks_section := _extract_databricks_section src_content
  if strContains dst_content markerText || strContains dst_content "dbx-aidev" then
    none
  else
    some (rstripStr dst_content ++ "\n\n" ++ databricks_section)

/-- The final content of `CLAUDE.md` after `_append_to_claude_md` ran. -/
def appendFinalContent (src_content dst_content : String) : String :=
  (_append_to_claude_md src_content dst_content).getD dst_content

/-- Whether a file name matches the `*.md` glob pattern. -/
def endsWithMd (n : String) : Bool :=
  charsStartWith ".md".data.reverse n.data.reverse

/-- The `for cmd_file in src_dir.glob('*.md')` loop of
`_merge_claude_commands`: copy each file whose name is absent from the
destination, skip the others. -/
def mergeFiles : List (String × String) → List (String × String) →
    List (String × String)
  | [], dst => dst
  | f :: rest, dst =>
    if (List.lookup f.1 dst).isSome then mergeFiles rest dst
    else mergeFiles rest (dst ++ [f])

/-- From `dbai.py`, `_merge_claude_commands` (lines 121-129), over
directories modelled as name-to-content association lists. -/
def _merge_claude_commands (src_dir dst_dir : List (String × String)) :
    List (String × String) :=
  mergeFiles (src_dir.filter (fun f => endsWithMd f.1)) dst_dir

/-- Result of the command-definition merge step: the final destination
directory and the number of confirmation prompts shown. -/
structure CommandsStepResult where
  files : List (String × String)
  prompts : Nat
deriving DecidableEq, Repr

/-- From `dbai.py`, `_copy_templates` lines 73-85 (the `.claude/commands`
step): create the destination directory if absent (`dst_dir = none`),
glob its `*.md` files, and either merge directly (no existing `*.md`
file) or prompt once and merge only on a positive answer. -/
def commandsStep (src_dir : List (String × String))
    (dst_dir : Option (List (String × String))) (answer : Bool) :
    CommandsStepResult :=
  let dst := dst_dir.getD []
  let existing_commands := dst.filter (fun f => endsWithMd f.1)
  if ¬ existing_commands.isEmpty then
    if answer then ⟨_merge_claude_commands src_dir dst, 1⟩
    else ⟨dst, 1⟩
  else
    ⟨_merge_claude_commands src_dir dst, 0⟩

example :
    _append_to_claude_md "# Databricks AI Development Setup Tool\nbody"
      "my project uses dbx-aidev already" = none := by decide

example :
    _append_to_claude_md "intro\n# Databricks AI Development Setup Tool\nbody"
      "# My project\n" =
      some "# My project\n\n# Databricks AI Development Setup Tool\nbody" := by decide

example :
    commandsStep [("dbx-setup.md", "s"), ("docs.md", "d")] none true
      = ⟨[("dbx-setup.md", "s"), ("docs.md", "d")], 0⟩ := by decide

example :
    commandsStep [("dbx-setup.md", "s")] (some [("other.md", "o")]) false
      = ⟨[("other.md", "o")], 1⟩ := by decide

/-- A probe that always reports a state that is neither terminal nor in
progress. -/
def mysteryProbe : Nat → Except String StrDict :=
  fun _ => Except.ok [("state", "MYSTERY")]

/-- A client whose first status poll reports an unknown state. -/
def unknownStateClient : SqlClient where
  execute_statement := fun _ _ _ _ _ => Except.ok "stmt-u"
  get_statement := fun _ => Except.ok ⟨"WAITING", [], none⟩
  get_statement_result_chunk_n := fun _ => Except.ok ⟨none⟩

/-- A client whose submission succeeds but whose first status poll raises. -/
def pollCrashClient : SqlClient where
  execute_statement := fun _ _ _ _ _ => Except.ok "stmt-1"
  get_statement := fun _ => Except.error "connection reset"
  get_statement_result_chunk_n := fun _ => Except.ok ⟨none⟩

/-- Witness for C1 (amended), at a client that raises on submission. -/
def submitCrashClient : SqlClient where
  execute_statement := fun _ _ _ _ _ => Except.error "no network"
  get_statement := fun _ => Except.error "no network"
  get_statement_result_chunk_n := fun _ => Except.error "no network"

/-- A client that succeeds at once with three reported rows but raises
when the result chunk is fetched. -/
def fetchErrClient : SqlClient where
  execute_statement := fun _ _ _ _ _ => Except.ok "stmt-f"
  get_statement := fun _ => Except.ok ⟨"SUCCEEDED", [], some ⟨some 3, some ["c"]⟩⟩
  get_statement_result_chunk_n := fun _ => Except.error "chunk fetch failed"

/-- A client that succeeds at once with a manifest reporting zero total
rows. -/
def zeroRowClient : SqlClient where
  execute_statement := fun _ _ _ _ _ => Except.ok "stmt-z"
  get_statement := fun _ => Except.ok ⟨"SUCCEEDED", [], some ⟨some 0, some ["x"]⟩⟩
  get_statement_result_chunk_n := fun _ => Except.ok ⟨none⟩

/-! ## Lemmas about the generic polling loop -/

theorem progress_not_terminal {s : String} (h : s ∈ pollProgressStates) :
    s ∉ pollTerminalStates := by
  fin_cases h <;> decide

/-- A probe that always reports an in-progress state drives the loop to
the timeout exit, which happens at the first accumulated sleep time
reaching the timeout. -/
theorem pollLoop_progress_timeout (probe : Nat → Except String StrDict)
    (T I : Nat)
    (hprog : ∀ k, ∃ st, probe k = Except.ok st ∧ stateUpper st ∈ pollProgressStates) :
    ∀ fuel calls elapsed, T ≤ elapsed + I * fuel → elapsed < T + I →
      ∃ e c, pollLoop probe T I fuel calls elapsed = some ⟨timeoutDict T, e, c⟩ ∧
        T ≤ e ∧ e < T + I := by
  intro fuel
  induction fuel with
  | zero =>
    intro calls elapsed hfuel hinv
    have hge : ¬ elapsed < T := by omega
    exact ⟨elapsed, calls, by rw [pollLoop, if_neg hge], by omega, hinv⟩
  | succ fuel ih =>
    intro calls elapsed hfuel hinv
    by_cases hel : elapsed < T
    · obtain ⟨st, hst, hmem⟩ := hprog calls
      have hterm := progress_not_terminal hmem
      have hstep : pollLoop probe T I (fuel + 1) calls elapsed
          = pollLoop probe T I fuel (calls + 1) (elapsed + I) := by
        rw [pollLoop, if_pos hel, hst]
        simp [hterm, hmem]
      rw [hstep]
      rw [Nat.mul_succ] at hfuel
      exact ih (calls + 1) (elapsed + I) (by omega) (by omega)
    · exact ⟨elapsed, calls, by rw [pollLoop, if_neg hel], by omega, hinv⟩

/-- Claim C2, as frozen, is false: a probe that never reports a terminal
state may still make `poll_until_complete` return before the timeout has
elapsed, namely when it reports an unknown state.  With timeout 10 and
poll interval 1, the constant-`MYSTERY` probe never reports a terminal
state, yet the function returns the synthetic timeout dictionary at
accumulated time 0, strictly before the 10-second timeout. -/
theorem C2_counterexample :
    stateUpper [("state", "MYSTERY")] = "MYSTERY" ∧
    "MYSTERY" ∉ pollTerminalStates ∧
    (1 : Nat) < 10 ∧
    poll_until_complete mysteryProbe 10 1 = some ⟨timeoutDict 10, 0, 1⟩ ∧
    (0 : Nat) < 10 := by decide

/-- Claim C2 (amended): for every timeout `T`, positive poll interval
`I < T`, and probe that always reports an in-progress (pending, running
or executing) state, `poll_until_complete` returns the synthetic
`TIMEOUT` dictionary (it does not raise), at an accumulated waiting time
of at least `T` seconds and less than `T + I` seconds. -/
theorem C2_amended_timeout_after_T (probe : Nat → Except String StrDict)
    (T I : Nat) (hI : 1 ≤ I) (hIT : I < T)
    (hprog : ∀ k, ∃ st, probe k = Except.ok st ∧ stateUpper st ∈ pollProgressStates) :
    ∃ e c, poll_until_complete probe T I = some ⟨timeoutDict T, e, c⟩ ∧
      T ≤ e ∧ e < T + I := by
  have h1 : T ≤ 0 + I * (T + 1) := by
    have h := Nat.le_mul_of_pos_left (T + 1) hI
    omega
  exact pollLoop_progress_timeout probe T I hprog (T + 1) 0 0 h1 (by omega)

/-- Witness for C2 (amended): a concrete always-`RUNNING` probe with
timeout 3 and interval 2 hits the amended claim's conclusion. -/
theorem C2_amended_witness :
    ∃ e c,
      poll_until_complete (fun _ => Except.ok [("state", "RUNNING")]) 3 2
        = some ⟨timeoutDict 3, e, c⟩ ∧ 3 ≤ e ∧ e < 3 + 2 :=
  C2_amended_timeout_after_T (fun _ => Except.ok [("state", "RUNNING")]) 3 2
    (by decide) (by decide)
    (fun _ => ⟨[("state", "RUNNING")], rfl, by decide⟩)

/-- Claim C8: in both polling loops, observing a state outside the
terminal and in-progress sets, or an exception from the probe itself,
makes the loop exit at once with the synthetic timeout result, even
though the configured timeout (strictly larger than the accumulated
waiting time) has not elapsed. -/
theorem C8_unknown_or_exception_breaks :
    (∀ (probe : Nat → Except String StrDict) (T I fuel calls elapsed : Nat),
      elapsed < T →
      (∀ st, probe calls = Except.ok st →
        stateUpper st ∉ pollTerminalStates ∧ stateUpper st ∉ pollProgressStates) →
      pollLoop probe T I (fuel + 1) calls elapsed
        = some ⟨timeoutDict T, elapsed, calls + 1⟩)
    ∧ (∀ (client : SqlClient) (sid : String) (T fuel calls elapsed : Nat),
      elapsed < T →
      (∀ st, client.get_statement calls = Except.ok st →
        st.state ≠ "SUCCEEDED" ∧ st.state ≠ "FAILED" ∧ st.state ≠ "CANCELED" ∧
        st.state ≠ "PENDING" ∧ st.state ≠ "RUNNING") →
      waitLoop client sid T (fuel + 1) calls elapsed
        = some (SqlOutcome.timeout sid T)) := by
  constructor
  · intro probe T I fuel calls elapsed hel hbad
    rw [pollLoop, if_pos hel]
    cases hpc : probe calls with
    | error e => rfl
    | ok st =>
      obtain ⟨h1, h2⟩ := hbad st hpc
      simp [h1, h2]
  · intro client sid T fuel calls elapsed hel hbad
    rw [waitLoop, if_pos hel]
    cases hgc : client.get_statement calls with
    | error e => rfl
    | ok st =>
      obtain ⟨h1, h2, h3, h4, h5⟩ := hbad st hgc
      simp [h1, h2, h3, h4, h5]

/-- Witness for C8: a probe that raises and a client polling an unknown
state both make their loop return the timeout result with 100 seconds
still on the clock. -/
theorem C8_witness :
    pollLoop (fun _ => Except.error "boom") 100 10 11 0 0
      = some ⟨timeoutDict 100, 0, 1⟩ ∧
    waitLoop unknownStateClient "stmt-u" 100 101 0 0
      = some (SqlOutcome.timeout "stmt-u" 100) :=
  ⟨C8_unknown_or_exception_breaks.1 (fun _ => Except.error "boom") 100 10 10 0 0
      (by decide) (fun st h => by cases h),
   C8_unknown_or_exception_breaks.2 unknownStateClient "stmt-u" 100 100 0 0
      (by decide) (fun st h => by cases h; decide)⟩

/-! ## Lemmas about the SQL polling loop -/

theorem pending_state_branches {s : String}
    (h : s = "PENDING" ∨ s = "RUNNING") :
    ¬ s = "SUCCEEDED" ∧ ¬ (s = "FAILED" ∨ s = "CANCELED") := by
  rcases h with h | h <;> subst h <;> exact ⟨by decide, by decide⟩

/-- With enough fuel for the 5-second sleeps, the SQL polling loop always
returns a dictionary and its status tag is one of the five defined
tags. -/
theorem waitLoop_total_tag (client : SqlClient) (sid : String) (T : Nat) :
    ∀ fuel calls elapsed, T ≤ elapsed + 5 * fuel →
      ∃ r, waitLoop client sid T fuel calls elapsed = some r ∧
        statusTag r ∈ ["SUCCESS", "FAILED", "CANCELED", "TIMEOUT", "ERROR"] := by
  intro fuel
  induction fuel with
  | zero =>
    intro calls elapsed hfuel
    have hge : ¬ elapsed < T := by omega
    exact ⟨SqlOutcome.timeout sid T, by rw [waitLoop, if_neg hge], by simp [statusTag]⟩
  | succ fuel ih =>
    intro calls elapsed hfuel
    by_cases hel : elapsed < T
    · cases hgc : client.get_statement calls with
      | error e =>
        refine ⟨SqlOutcome.timeout sid T, ?_, by simp [statusTag]⟩
        rw [waitLoop, if_pos hel, hgc]
      | ok st =>
        by_cases h1 : st.state = "SUCCEEDED"
        · refine ⟨SqlOutcome.success sid elapsed
            (_get_statement_results client (calls + 1)).data.length
            (_get_statement_results client (calls + 1)), ?_, by simp [statusTag]⟩
          rw [waitLoop, if_pos hel, hgc]
          simp [h1]
        · by_cases h2 : st.state = "FAILED" ∨ st.state = "CANCELED"
          · refine ⟨SqlOutcome.terminalFail st.state sid
              (safe_get_error_message st.status_fields), ?_, ?_⟩
            · rw [waitLoop, if_pos hel, hgc]
              simp [h1, h2]
            · simp only [statusTag]
              rcases h2 with h2 | h2 <;> rw [h2] <;> decide
          · by_cases h3 : st.state = "PENDING" ∨ st.state = "RUNNING"
            · have hstep : waitLoop client sid T (fuel + 1) calls elapsed
                  = waitLoop client sid T fuel (calls + 1) (elapsed + 5) := by
                rw [waitLoop, if_pos hel, hgc]
                simp [h1, h2, h3]
              rw [hstep]
              rw [Nat.mul_succ] at hfuel
              exact ih (calls + 1) (elapsed + 5) (by omega)
            · refine ⟨SqlOutcome.timeout sid T, ?_, by simp [statusTag]⟩
              rw [waitLoop, if_pos hel, hgc]
              simp [h1, h2, h3]
    · exact ⟨SqlOutcome.timeout sid T, by rw [waitLoop, if_neg hel], by simp [statusTag]⟩

/-- After `k` polls that all report `PENDING`/`RUNNING`, the loop is at
call `calls + k` with `5 * k` more slept seconds and `k` less fuel. -/
theorem waitLoop_skip (client : SqlClient) (sid : String) (T : Nat) :
    ∀ k fuel calls elapsed,
      (∀ j, j < k → ∃ stj, client.get_statement (calls + j) = Except.ok stj ∧
        (stj.state = "PENDING" ∨ stj.state = "RUNNING")) →
      elapsed + 5 * k < T → k ≤ fuel →
      waitLoop client sid T fuel calls elapsed
        = waitLoop client sid T (fuel - k) (calls + k) (elapsed + 5 * k) := by
  intro k
  induction k with
  | zero => intro fuel calls elapsed _ _ _; simp
  | succ k ih =>
    intro fuel calls elapsed hpend hT hfuel
    obtain ⟨st0, hst0, hprog0⟩ := hpend 0 (by omega)
    rw [Nat.add_zero] at hst0
    cases fuel with
    | zero => omega
    | succ f =>
      have hel : elapsed < T := by omega
      obtain ⟨hns, hnf⟩ := pending_state_branches hprog0
      have hstep : waitLoop client sid T (f + 1) calls elapsed
          = waitLoop client sid T f (calls + 1) (elapsed + 5) := by
        rw [waitLoop, if_pos hel, hst0]
        simp [hns, hnf, hprog0]
      rw [hstep]
      have hrest := ih f (calls + 1) (elapsed + 5)
        (fun j hj => by
          obtain ⟨stj, hstj, hpj⟩ := hpend (j + 1) (by omega)
          refine ⟨stj, ?_, hpj⟩
          rw [show calls + 1 + j = calls + (j + 1) by omega]
          exact hstj)
        (by omega) (by omega)
      have e1 : f - k = f + 1 - (k + 1) := by omega
      have e2 : calls + 1 + k = calls + (k + 1) := by omega
      have e3 : elapsed + 5 + 5 * k = elapsed + 5 * (k + 1) := by omega
      rw [e1, e2, e3] at hrest
      exact hrest


/-- Claim C1, as frozen, is false in its "accompanying error message"
part: when the client raises during polling (here on the very first
status poll), `execute_sql` returns the synthetic `TIMEOUT` dictionary,
whose `'error'` key is absent — a caught failure without an accompanying
error message. -/
theorem C1_counterexample :
    execute_sql pollCrashClient "SELECT 1" "wh" none none none 300
      = some (SqlOutcome.timeout "stmt-1" 300) ∧
    outcomeError (SqlOutcome.timeout "stmt-1" 300) = none := by decide

/-- Claim C1 (amended): `execute_sql` never raises: for every client
behaviour and every input it returns a dictionary whose status tag is
one of `SUCCESS`, `FAILED`, `CANCELED`, `TIMEOUT`, `ERROR`.  An
exception raised during submission is caught and returned as the
`ERROR` dictionary carrying the exception text; an exception raised
during polling yields the synthetic `TIMEOUT` dictionary (which carries
the timeout value but no error message). -/
theorem C1_amended_never_raises (client : SqlClient) (q w : String)
    (cat sch : Option String) (ps : Option (List (String × String))) (T : Nat) :
    (∃ r, execute_sql client q w cat sch ps T = some r ∧
      statusTag r ∈ ["SUCCESS", "FAILED", "CANCELED", "TIMEOUT", "ERROR"])
    ∧ (∀ e, client.execute_statement q w cat sch (mkStatementParams ps)
          = Except.error e →
        execute_sql client q w cat sch ps T = some (SqlOutcome.errorResult e))
    ∧ (∀ sid e, client.execute_statement q w cat sch (mkStatementParams ps)
          = Except.ok sid →
        client.get_statement 0 = Except.error e → 0 < T →
        execute_sql client q w cat sch ps T = some (SqlOutcome.timeout sid T)) := by
  refine ⟨?_, ?_, ?_⟩
  · cases hs : client.execute_statement q w cat sch (mkStatementParams ps) with
    | error e =>
      refine ⟨SqlOutcome.errorResult e, ?_, by simp [statusTag]⟩
      unfold execute_sql
      rw [hs]
    | ok sid =>
      obtain ⟨r, hr, htag⟩ :=
        waitLoop_total_tag client sid T (T + 1) 0 0 (by omega)
      refine ⟨r, ?_, htag⟩
      unfold execute_sql _wait_for_sql_completion
      rw [hs]
      exact hr
  · intro e he
    unfold execute_sql
    rw [he]
  · intro sid e hok hge hT
    unfold execute_sql
    rw [hok]
    show _wait_for_sql_completion client sid T = _
    unfold _wait_for_sql_completion
    rw [waitLoop, if_pos hT, hge]


/-- Witness for C1 (amended): the conclusion instantiated at a concrete
client whose submission raises. -/
theorem C1_amended_witness :
    (∃ r, execute_sql submitCrashClient "SELECT 1" "wh" none none none 60 = some r ∧
      statusTag r ∈ ["SUCCESS", "FAILED", "CANCELED", "TIMEOUT", "ERROR"]) ∧
    execute_sql submitCrashClient "SELECT 1" "wh" none none none 60
      = some (SqlOutcome.errorResult "no network") :=
  ⟨(C1_amended_never_raises submitCrashClient "SELECT 1" "wh" none none none 60).1,
   (C1_amended_never_raises submitCrashClient "SELECT 1" "wh" none none none 60).2.1
     "no network" rfl⟩

/-- Claim C3: if the statement reaches `SUCCEEDED` (after `k` pending
polls) but fetching the result chunk raises, `execute_sql` still
returns the `SUCCESS` dictionary; its nested results have empty columns
and empty data and carry the fetch error text, and `row_count` is 0. -/
theorem C3_fetch_error_keeps_success
    (client : SqlClient) (q w : String) (cat sch : Option String)
    (ps : Option (List (String × String))) (T k : Nat) (sid : String)
    (st st2 : StatementInfo) (m : Manifest) (trc : Int) (e : String)
    (hsub : client.execute_statement q w cat sch (mkStatementParams ps)
      = Except.ok sid)
    (hpend : ∀ j, j < k → ∃ stj, client.get_statement j = Except.ok stj ∧
      (stj.state = "PENDING" ∨ stj.state = "RUNNING"))
    (hk : client.get_statement k = Except.ok st)
    (hst : st.state = "SUCCEEDED")
    (hk2 : client.get_statement (k + 1) = Except.ok st2)
    (hm : st2.manifest = some m)
    (htrc : m.total_row_count = some trc) (hpos : 0 < trc)
    (hchunk : client.get_statement_result_chunk_n 0 = Except.error e)
    (hT : 5 * k < T) :
    execute_sql client q w cat sch ps T
      = some (SqlOutcome.success sid (5 * k) 0 ⟨[], [], none, some e⟩) ∧
    statusTag (SqlOutcome.success sid (5 * k) 0 ⟨[], [], none, some e⟩)
      = "SUCCESS" := by
  refine ⟨?_, rfl⟩
  have hres : _get_statement_results client (k + 1) = ⟨[], [], none, some e⟩ := by
    unfold _get_statement_results
    rw [hk2]
    simp [hm, htrc, hchunk, hpos]
  unfold execute_sql
  rw [hsub]
  show _wait_for_sql_completion client sid T = _
  unfold _wait_for_sql_completion
  rw [waitLoop_skip client sid T k (T + 1) 0 0
    (fun j hj => by simpa using hpend j hj) (by omega) (by omega)]
  rw [show T + 1 - k = (T - k) + 1 by omega]
  rw [Nat.zero_add, Nat.zero_add]
  rw [waitLoop, if_pos hT, hk]
  simp [hst, hres]


/-- Witness for C3: the concrete `fetchErrClient` yields `SUCCESS` with
the empty, error-annotated result set. -/
theorem C3_witness :
    execute_sql fetchErrClient "q" "w" none none none 30
      = some (SqlOutcome.success "stmt-f" (5 * 0) 0
          ⟨[], [], none, some "chunk fetch failed"⟩) ∧
    statusTag (SqlOutcome.success "stmt-f" (5 * 0) 0
        ⟨[], [], none, some "chunk fetch failed"⟩) = "SUCCESS" :=
  C3_fetch_error_keeps_success fetchErrClient "q" "w" none none none 30 0 "stmt-f"
    ⟨"SUCCEEDED", [], some ⟨some 3, some ["c"]⟩⟩
    ⟨"SUCCEEDED", [], some ⟨some 3, some ["c"]⟩⟩
    ⟨some 3, some ["c"]⟩ 3 "chunk fetch failed"
    rfl (fun j hj => absurd hj (Nat.not_lt_zero j)) rfl rfl rfl rfl rfl
    (by decide) rfl (by decide)

/-- Claim C4: when the statement reaches `SUCCEEDED` (after `k` pending
polls) and the re-fetched statement's manifest is absent or reports zero
total rows, the result has empty columns, empty data and `row_count = 0`,
and this holds whatever the chunk-fetch oracle does — no result-page
fetch is attempted. -/
theorem C4_zero_rows_empty_no_fetch
    (client : SqlClient) (q w : String) (cat sch : Option String)
    (ps : Option (List (String × String))) (T k : Nat) (sid : String)
    (st st2 : StatementInfo)
    (hsub : client.execute_statement q w cat sch (mkStatementParams ps)
      = Except.ok sid)
    (hpend : ∀ j, j < k → ∃ stj, client.get_statement j = Except.ok stj ∧
      (stj.state = "PENDING" ∨ stj.state = "RUNNING"))
    (hk : client.get_statement k = Except.ok st)
    (hst : st.state = "SUCCEEDED")
    (hk2 : client.get_statement (k + 1) = Except.ok st2)
    (hm : st2.manifest = none ∨
      ∃ m, st2.manifest = some m ∧ m.total_row_count = some 0)
    (hT : 5 * k < T) :
    ∀ g, execute_sql { client with get_statement_result_chunk_n := g }
        q w cat sch ps T
      = some (SqlOutcome.success sid (5 * k) 0 ⟨[], [], some 0, none⟩) := by
  intro g
  set c2 : SqlClient := { client with get_statement_result_chunk_n := g } with hc2
  have hres : _get_statement_results c2 (k + 1) = ⟨[], [], some 0, none⟩ := by
    unfold _get_statement_results
    have hk2' : c2.get_statement (k + 1) = Except.ok st2 := hk2
    rw [hk2']
    rcases hm with hm | ⟨m, hm, h0⟩
    · simp [hm]
    · simp [hm, h0]
  have hsub' : c2.execute_statement q w cat sch (mkStatementParams ps)
      = Except.ok sid := hsub
  unfold execute_sql
  rw [hsub']
  show _wait_for_sql_completion c2 sid T = _
  unfold _wait_for_sql_completion
  rw [waitLoop_skip c2 sid T k (T + 1) 0 0
    (fun j hj => by simpa using hpend j hj) (by omega) (by omega)]
  rw [show T + 1 - k = (T - k) + 1 by omega]
  rw [Nat.zero_add, Nat.zero_add]
  have hk' : c2.get_statement k = Except.ok st := hk
  rw [waitLoop, if_pos hT, hk']
  simp [hst, hres]


/-- Witness for C4: the concrete zero-row client returns the empty
result even when the chunk-fetch oracle would raise. -/
theorem C4_witness :
    execute_sql
        { zeroRowClient with
            get_statement_result_chunk_n := fun _ => Except.error "must not be called" }
        "q" "w" none none none 20
      = some (SqlOutcome.success "stmt-z" (5 * 0) 0 ⟨[], [], some 0, none⟩) :=
  C4_zero_rows_empty_no_fetch zeroRowClient "q" "w" none none none 20 0 "stmt-z"
    ⟨"SUCCEEDED", [], some ⟨some 0, some ["x"]⟩⟩
    ⟨"SUCCEEDED", [], some ⟨some 0, some ["x"]⟩⟩
    rfl (fun j hj => absurd hj (Nat.not_lt_zero j)) rfl rfl rfl
    (Or.inr ⟨⟨some 0, some ["x"]⟩, rfl, rfl⟩) (by decide)
    (fun _ => Except.error "must not be called")

/-- Whenever the SQL polling loop produces a `SUCCESS` dictionary, its
`row_count` field is the length of the nested `data` list. -/
theorem waitLoop_success_row_count (client : SqlClient) (sid : String) (T : Nat) :
    ∀ fuel calls elapsed s t rc res,
      waitLoop client sid T fuel calls elapsed
        = some (SqlOutcome.success s t rc res) → rc = res.data.length := by
  intro fuel
  induction fuel with
  | zero =>
    intro calls elapsed s t rc res h
    rw [waitLoop] at h
    split at h
    · simp at h
    · simp at h
  | succ fuel ih =>
    intro calls elapsed s t rc res h
    rw [waitLoop] at h
    split at h
    · split at h
      · simp at h
      · split at h
        · simp at h
          obtain ⟨-, -, h3, h4⟩ := h
          rw [← h4, ← h3]
        · split at h
          · simp at h
          · split at h
            · exact ih _ _ s t rc res h
            · simp at h
    · simp at h

/-- The polling loop and result fetch consult only `get_statement` and
chunk 0: two clients agreeing there run identically. -/
theorem waitLoop_chunk0_congr (c1 c2 : SqlClient) (sid : String) (T : Nat)
    (hgs : c1.get_statement = c2.get_statement)
    (hc0 : c1.get_statement_result_chunk_n 0 = c2.get_statement_result_chunk_n 0) :
    ∀ fuel calls elapsed,
      waitLoop c1 sid T fuel calls elapsed = waitLoop c2 sid T fuel calls elapsed := by
  have hres : ∀ n, _get_statement_results c1 n = _get_statement_results c2 n := by
    intro n
    unfold _get_statement_results
    rw [hgs, hc0]
  intro fuel
  induction fuel with
  | zero => intro calls elapsed; rfl
  | succ fuel ih =>
    intro calls elapsed
    simp only [waitLoop, hgs, hres, ih]

/-- Claim C9: in every `SUCCESS` result of `execute_sql`, `row_count`
equals the length of the nested `data` list; the run depends on the
chunk oracle only at chunk index 0 (rows are built solely from the
first chunk); and the data may hold fewer rows than `total_row_count`,
as at `multiChunkClient`, where 2 rows are returned out of a reported
total of 5. -/
theorem C9_row_count_and_first_chunk :
    (∀ (client : SqlClient) (q w : String) (cat sch : Option String)
        (ps : Option (List (String × String))) (T : Nat)
        (s : String) (t rc : Nat) (res : SqlResults),
      execute_sql client q w cat sch ps T = some (SqlOutcome.success s t rc res) →
      rc = res.data.length)
    ∧ (∀ c1 c2 : SqlClient,
      c1.execute_statement = c2.execute_statement →
      c1.get_statement = c2.get_statement →
      c1.get_statement_result_chunk_n 0 = c2.get_statement_result_chunk_n 0 →
      ∀ (q w : String) (cat sch : Option String)
        (ps : Option (List (String × String))) (T : Nat),
        execute_sql c1 q w cat sch ps T = execute_sql c2 q w cat sch ps T)
    ∧ (execute_sql multiChunkClient "SELECT a FROM t" "wh" none none none 60
        = some (SqlOutcome.success "stmt-1" 0 2
            ⟨["a"], [[("a", "1")], [("a", "2")]], some 5, none⟩)
      ∧ (2 : Int) < 5) := by
  refine ⟨?_, ?_, by decide⟩
  · intro client q w cat sch ps T s t rc res h
    unfold execute_sql at h
    cases he : client.execute_statement q w cat sch (mkStatementParams ps) with
    | error e => rw [he] at h; simp at h
    | ok sid =>
      rw [he] at h
      exact waitLoop_success_row_count client sid T (T + 1) 0 0 s t rc res h
  · intro c1 c2 hex hgs hc0 q w cat sch ps T
    unfold execute_sql _wait_for_sql_completion
    rw [hex]
    simp only [waitLoop_chunk0_congr c1 c2 _ _ hgs hc0]

/-- Witness for C9: the row-count invariant instantiated at
`multiChunkClient`, whose success result carries 2 rows. -/
theorem C9_witness :
    (2 : Nat) = (⟨["a"], [[("a", "1")], [("a", "2")]], some 5, none⟩
      : SqlResults).data.length :=
  C9_row_count_and_first_chunk.1 multiChunkClient "SELECT a FROM t" "wh"
    none none none 60 "stmt-1" 0 2
    ⟨["a"], [[("a", "1")], [("a", "2")]], some 5, none⟩ (by decide)

/-- Claim C5: when the existing root document already contains the
section-start marker or the product-name token, the append operation is
a no-op — nothing is written and the final content equals the original
content. -/
theorem C5_append_guard_noop (src dst : String)
    (h : strContains dst markerText = true ∨ strContains dst "dbx-aidev" = true) :
    _append_to_claude_md src dst = none ∧ appendFinalContent src dst = dst := by
  have hguard : (strContains dst markerText || strContains dst "dbx-aidev") = true := by
    rcases h with h | h <;> simp [h]
  have h1 : _append_to_claude_md src dst = none := by
    unfold _append_to_claude_md
    simp [hguard]
  exact ⟨h1, by unfold appendFinalContent; rw [h1]; rfl⟩

/-- Witness for C5: a concrete root document containing the product-name
token is left untouched. -/
theorem C5_witness :
    _append_to_claude_md "# Databricks AI Development Setup Tool\nbody"
        "project scaffolded by dbx-aidev" = none ∧
    appendFinalContent "# Databricks AI Development Setup Tool\nbody"
        "project scaffolded by dbx-aidev" = "project scaffolded by dbx-aidev" :=
  C5_append_guard_noop "# Databricks AI Development Setup Tool\nbody"
    "project scaffolded by dbx-aidev" (Or.inr (by decide))

/-- An always-failing run makes `retryAux` walk through all remaining
attempts and return the last one's result. -/
theorem retryAux_always_fail (run : Nat → StrDict)
    (hfail : ∀ k, List.lookup "status" (run k) ≠ some "SUCCESS") :
    ∀ remaining attempt, retryAux run attempt remaining
      = (run (attempt + remaining), remaining + 1) := by
  intro remaining
  induction remaining with
  | zero => intro attempt; rw [retryAux]; simp
  | succ r ih =>
    intro attempt
    simp only [retryAux]
    rw [if_neg (hfail attempt)]
    rw [ih (attempt + 1)]
    rw [show attempt + 1 + r = attempt + (r + 1) from by omega]

/-- Claim C6: with `max_retries = n` and an inner run that never returns
`SUCCESS`, `run_notebook_with_retry` makes exactly `n + 1` invocations
and returns the last attempt's result (attempt index `n`). -/
theorem C6_retry_count_and_last_result (run : Nat → StrDict) (n : Nat)
    (hfail : ∀ k, List.lookup "status" (run k) ≠ some "SUCCESS") :
    run_notebook_with_retry run n = (run n, n + 1) := by
  unfold run_notebook_with_retry
  rw [retryAux_always_fail run hfail n 0]
  rw [Nat.zero_add]

/-- Witness for C6: with `max_retries = 2` and a constant failing run,
there are exactly 3 invocations and the failure dictionary is returned. -/
theorem C6_witness :
    run_notebook_with_retry (fun _ => [("status", "FAILED")]) 2
      = ([("status", "FAILED")], 3) :=
  C6_retry_count_and_last_result (fun _ => [("status", "FAILED")]) 2
    (fun k => by
      show List.lookup "status" [("status", "FAILED")] ≠ some "SUCCESS"
      decide)

theorem lookup_append (n : String) :
    ∀ a b : List (String × String),
      List.lookup n (a ++ b)
        = (List.lookup n a).orElse (fun _ => List.lookup n b) := by
  intro a b
  induction a with
  | nil => simp [List.lookup, Option.orElse]
  | cons f rest ih =>
    cases f with
    | mk k v =>
      by_cases h : n == k
      · simp [List.lookup, h, Option.orElse]
      · simp only [List.cons_append, List.lookup, Bool.not_eq_true] at *
        rw [Bool.eq_false_iff] at h
        simp [h, ih, Option.orElse]

/-- Merging template files into a destination directory: a name present
in the destination keeps its binding; a name absent from it is looked up
among the template files. -/
theorem mergeFiles_lookup (n : String) :
    ∀ (l dst : List (String × String)),
      List.lookup n (mergeFiles l dst)
        = (List.lookup n dst).orElse (fun _ => List.lookup n l) := by
  intro l
  induction l with
  | nil =>
    intro dst
    cases h : List.lookup n dst <;> simp [mergeFiles, List.lookup, h, Option.orElse]
  | cons f rest ih =>
    intro dst
    rw [mergeFiles]
    by_cases hin : (List.lookup f.1 dst).isSome
    · rw [if_pos hin, ih]
      cases f with
      | mk k v =>
        by_cases hn : n == k
        · have heq : n = k := eq_of_beq hn
          subst heq
          obtain ⟨w, hw⟩ := Option.isSome_iff_exists.mp hin
          simp [hw, List.lookup, Option.orElse]
        · rw [Bool.not_eq_true] at hn
          cases h : List.lookup n dst <;>
            simp [List.lookup, hn, h, Option.orElse]
    · rw [if_neg hin, ih, lookup_append]
      cases f with
      | mk k v =>
        cases hd : List.lookup n dst with
        | some w => simp [Option.orElse]
        | none =>
          by_cases hn : n == k
          · simp [List.lookup, hn, Option.orElse]
          · rw [Bool.not_eq_true] at hn
            simp [List.lookup, hn, Option.orElse]

/-- Claim C10: the command-file merge never overwrites or modifies an
existing destination file — every name already bound in the destination
keeps its original content — and any binding it adds comes from a
template `*.md` file whose name was absent. -/
theorem C10_merge_preserves_existing (src dst : List (String × String)) (n : String) :
    ((List.lookup n dst).isSome = true →
      List.lookup n (_merge_claude_commands src dst) = List.lookup n dst)
    ∧ (List.lookup n dst = none →
      List.lookup n (_merge_claude_commands src dst)
        = List.lookup n (src.filter (fun f => endsWithMd f.1))) := by
  constructor
  · intro h
    unfold _merge_claude_commands
    rw [mergeFiles_lookup]
    obtain ⟨v, hv⟩ := Option.isSome_iff_exists.mp h
    rw [hv]
    rfl
  · intro h
    unfold _merge_claude_commands
    rw [mergeFiles_lookup, h]
    rfl

/-- Witness for C10: a destination file named as a template file keeps
its old content through the merge. -/
theorem C10_witness :
    List.lookup "docs.md"
        (_merge_claude_commands [("docs.md", "new")] [("docs.md", "old")])
      = List.lookup "docs.md" [("docs.md", "old")] :=
  (C10_merge_preserves_existing [("docs.md", "new")] [("docs.md", "old")]
    "docs.md").1 (by decide)

/-- Claim C7, as frozen, is false in its prompt condition: the step
prompts only when the destination directory already contains a `*.md`
file, not "at least one file".  Concretely, a destination holding the
single file `notes.txt` is nonempty, yet the step runs without any
prompt. -/
theorem C7_counterexample :
    ((some [("notes.txt", "x")] : Option (List (String × String))).getD [] ≠ []) ∧
    (commandsStep [("dbx-setup.md", "c")] (some [("notes.txt", "x")]) true).prompts
      = 0 := by decide

/-- Claim C7 (amended): each template command file is copied only when no
same-named destination file exists and is skipped individually otherwise;
the user is prompted exactly once for the whole batch if and only if the
destination directory already contains at least one `*.md` file (files
with other extensions do not trigger the prompt), and a declined prompt
skips the entire batch. -/
theorem C7_amended_merge_step (src : List (String × String))
    (dst0 : Option (List (String × String))) (answer : Bool) :
    ((commandsStep src dst0 answer).prompts
        = if ((dst0.getD []).filter (fun f => endsWithMd f.1)).isEmpty then 0 else 1)
    ∧ (((dst0.getD []).filter (fun f => endsWithMd f.1)).isEmpty = false →
        answer = false →
        (commandsStep src dst0 answer).files = dst0.getD [])
    ∧ ((((dst0.getD []).filter (fun f => endsWithMd f.1)).isEmpty = true ∨
          answer = true) →
        ∀ n, List.lookup n (commandsStep src dst0 answer).files
          = (List.lookup n (dst0.getD [])).orElse
              (fun _ => List.lookup n (src.filter (fun f => endsWithMd f.1)))) := by
  by_cases hem : ((dst0.getD []).filter (fun f => endsWithMd f.1)).isEmpty = true
  · refine ⟨?_, ?_, ?_⟩
    · simp [commandsStep, hem]
    · intro hfalse
      rw [hem] at hfalse
      cases hfalse
    · intro _ n
      simp [commandsStep, hem, _merge_claude_commands, mergeFiles_lookup]
  · refine ⟨?_, ?_, ?_⟩
    · cases answer <;> simp [commandsStep, hem]
    · intro _ hans
      subst hans
      simp [commandsStep, hem]
    · intro hor n
      rcases hor with hor | hans
      · exact absurd hor hem
      · subst hans
        simp [commandsStep, hem, _merge_claude_commands, mergeFiles_lookup]

/-- Witness for C7 (amended): a destination with one `*.md` file prompts
exactly once, and with a positive answer the absent template file is
looked up among the template `*.md` files. -/
theorem C7_amended_witness :
    (commandsStep [("dbx-setup.md", "s"), ("notes.txt", "t")]
        (some [("docs.md", "d")]) true).prompts = 1 ∧
    List.lookup "dbx-setup.md"
        (commandsStep [("dbx-setup.md", "s"), ("notes.txt", "t")]
          (some [("docs.md", "d")]) true).files
      = (List.lookup "dbx-setup.md" [("docs.md", "d")]).orElse
          (fun _ => List.lookup "dbx-setup.md"
            ([("dbx-setup.md", "s"), ("notes.txt", "t")].filter
              (fun f => endsWithMd f.1))) :=
  ⟨by
    rw [(C7_amended_merge_step [("dbx-setup.md", "s"), ("notes.txt", "t")]
      (some [("docs.md", "d")]) true).1]
    decide,
   (C7_amended_merge_step [("dbx-setup.md", "s"), ("notes.txt", "t")]
      (some [("docs.md", "d")]) true).2.2 (Or.inr rfl) "dbx-setup.md"⟩
